import Mathlib

/-
  Verification of the whitelist gateway (src/app.py) against its
  natural-language specification.  The Python source is shallowly embedded:
  pure string manipulation becomes Lean functions on `String`, the network
  side effects (port probe, RCON session) become explicit environment
  parameters recording which events occurred, and exceptions become sum
  types.
-/

namespace WhitelistGateway

/-! ## Identity Normalizer (src/app.py, `sanitize_username`, lines 32-36) -/

/-- Characters Python `str.strip()` removes at the ends of an ASCII string. -/
def pyWhitespace (c : Char) : Bool :=
  c == ' ' || c == '\t' || c == '\n' || c == '\r' || c == '\x0b' || c == '\x0c'

/-- Python `s.strip()`: drop leading and trailing whitespace. -/
def pyStrip (s : String) : String :=
  String.mk (((s.toList.dropWhile pyWhitespace).reverse.dropWhile pyWhitespace).reverse)

/-- Membership in the regex character class `[a-zA-Z0-9_ \.]` used by
`re.sub(r'[^a-zA-Z0-9_ \.]', '', username)`: a character survives the
substitution iff it matches this class. -/
def regexClassChar (c : Char) : Bool :=
  ('a' ≤ c && c ≤ 'z') || ('A' ≤ c && c ≤ 'Z') || ('0' ≤ c && c ≤ '9') ||
    c == '_' || c == ' ' || c == '.'

/-- `sanitize_username` (src/app.py lines 32-36): delete every character not
matching the class, then strip surrounding whitespace. -/
def sanitize_username (username : String) : String :=
  pyStrip (String.mk (username.toList.filter regexClassChar))

/-- Spec-side normalizer, written from the spec words: remove every character
outside the set `{A-Z, a-z, 0-9, underscore, space, dot}` (silent removal),
then trim leading/trailing whitespace.  Compared with `sanitize_username`
for the refinement claim about the normalizer. -/
def specAllowedChar (c : Char) : Bool :=
  ('A' ≤ c && c ≤ 'Z') || ('a' ≤ c && c ≤ 'z') || ('0' ≤ c && c ≤ '9') ||
    c == '_' || c == ' ' || c == '.'

/-- Spec-side contract `normalize(raw)`. -/
def normalize_spec (raw : String) : String :=
  pyStrip (String.mk (raw.toList.filter specAllowedChar))

/-! ## Substring matching (Python `"x" in s`) -/

/-- `firstMatches sub l`: `sub` occurs at the very start of `l`. -/
def firstMatches : List Char → List Char → Bool
  | [], _ => true
  | _ :: _, [] => false
  | a :: as, b :: bs => a == b && firstMatches as bs

/-- `hasSubList sub l`: `sub` occurs contiguously somewhere in `l`. -/
def hasSubList (sub : List Char) : List Char → Bool
  | [] => firstMatches sub []
  | b :: bs => firstMatches sub (b :: bs) || hasSubList sub bs

/-- Python's `sub in s` substring test. -/
def strHasSub (sub s : String) : Bool :=
  hasSubList sub.toList s.toList

/-- Python's `s.startswith(pre)`. -/
def strStartsWith (s pre : String) : Bool :=
  firstMatches pre.toList s.toList

/-! ## Reachability Check (src/app.py, `check_port_open`, lines 38-44)

`sock.connect_ex` either returns an error indicator (0 means the port is
open) or raises an exception (for faults such as failed name resolution,
which `connect_ex` does not convert into an indicator). -/

/-- Behaviour of the `sock.connect_ex((host, port))` call. -/
inductive ProbeResult where
  | ok (errno : Int)
  | fault (desc : String)
deriving DecidableEq

/-- Observable outcome of one `check_port_open` run: the returned Boolean
(`none` when the probe call raised, so the function raised too), and whether
`sock.close()` was reached. -/
structure PortCheckRun where
  result : Option Bool
  sockClosed : Bool
deriving DecidableEq

/-- `check_port_open` (src/app.py lines 38-44): create the socket, call
`connect_ex`, close the socket, return `result == 0`.  There is no
`try`/`finally`: if `connect_ex` raises, `sock.close()` is never reached and
the exception propagates. -/
def check_port_open (probe : ProbeResult) : PortCheckRun :=
  match probe with
  | .ok errno => { result := some (errno == 0), sockClosed := true }
  | .fault _ => { result := none, sockClosed := false }

/-! ## Command Session Adapter (src/app.py, `send_rcon_command`, lines 46-96) -/

/-- A fault raised while opening the RCON session or executing a command:
either a `ConnectionRefusedError` (caught by its own `except` clause) or any
other exception, carrying its `str(e)` description. -/
inductive Fault where
  | connectionRefused (desc : String)
  | other (desc : String)
deriving DecidableEq

/-- The `except` clauses of `send_rcon_command` (src/app.py lines 83-96):
`ConnectionRefusedError` gets its own message; otherwise substring-match the
description, checking "Authentication failed" first, then "timed out", and
fall back to wrapping the description. -/
def classify_rcon_error : Fault → String
  | .connectionRefused _ => "Connection Refused. Server running?"
  | .other desc =>
    if strHasSub "Authentication failed" desc then
      "RCON Authentication failed. Check password in .env"
    else if strHasSub "timed out" desc then
      "Connection timed out."
    else
      "RCON Error: " ++ desc

/-- Message returned when the pre-flight port check reports closed. -/
def portClosedMsg : String :=
  "Server is not listening on the RCON port. Ask admin to check server.properties."

/-- Environment for one `send_rcon_command` invocation: the behaviour of the
port probe, of `MCRcon.__enter__` (session open + authentication), and of
each `mcr.command` call (response text or raised fault). -/
structure RconEnv where
  probe : ProbeResult
  openFault : Option Fault
  exec : String → Except Fault String

/-- Observable outcome of one `send_rcon_command` run. `commandsSent` lists
the command strings passed to `mcr.command`, in order.  `faultHit` records
the exception caught by the `except` clauses, when one was.  `connected`,
`rawResponse` and `failureReason` encode the returned pair: `(True, response)`
on success, `(False, reason)` on failure. -/
structure AdapterRun where
  sessionOpened : Bool
  sessionClosed : Bool
  commandsSent : List String
  faultHit : Option Fault
  connected : Bool
  rawResponse : Option String
  failureReason : Option String
deriving DecidableEq

/-- `f'say {username} has signed up for the server!'` -/
def sayCmd (username : String) : String :=
  "say " ++ username ++ " has signed up for the server!"

/-- `f'whitelist add {username}'` -/
def addCmd (username : String) : String :=
  "whitelist add " ++ username

/-- `command2 = f'whitelist add .{username}'` (hard-coded dot, line 63) -/
def addDotCmd (username : String) : String :=
  "whitelist add ." ++ username

/-- `'whitelist reload'` -/
def reloadCmd : String := "whitelist reload"

/-- `send_rcon_command` (src/app.py lines 46-96), as a function of the
environment.  Returns `none` when the function itself raises (only possible
when `check_port_open`'s probe raises, since that call sits outside the
`try`).  Inside the `with` block the session is always closed on exit, and
the first fault aborts the remaining commands and is classified by the
`except` clauses. -/
def send_rcon_command (env : RconEnv) (username : String) : Option AdapterRun :=
  match (check_port_open env.probe).result with
  | none => none
  | some false =>
    some { sessionOpened := false, sessionClosed := false, commandsSent := [],
           faultHit := none, connected := false, rawResponse := none,
           failureReason := some portClosedMsg }
  | some true =>
    match env.openFault with
    | some f =>
      some { sessionOpened := false, sessionClosed := false, commandsSent := [],
             faultHit := some f, connected := false, rawResponse := none,
             failureReason := some (classify_rcon_error f) }
    | none =>
      match env.exec (sayCmd username) with
      | .error f =>
        some { sessionOpened := true, sessionClosed := true,
               commandsSent := [sayCmd username],
               faultHit := some f, connected := false, rawResponse := none,
               failureReason := some (classify_rcon_error f) }
      | .ok _ =>
        match env.exec (addCmd username) with
        | .error f =>
          some { sessionOpened := true, sessionClosed := true,
                 commandsSent := [sayCmd username, addCmd username],
                 faultHit := some f, connected := false, rawResponse := none,
                 failureReason := some (classify_rcon_error f) }
        | .ok response =>
          match env.exec (addDotCmd username) with
          | .error f =>
            some { sessionOpened := true, sessionClosed := true,
                   commandsSent := [sayCmd username, addCmd username, addDotCmd username],
                   faultHit := some f, connected := false, rawResponse := none,
                   failureReason := some (classify_rcon_error f) }
          | .ok _ =>
            match env.exec reloadCmd with
            | .error f =>
              some { sessionOpened := true, sessionClosed := true,
                     commandsSent := [sayCmd username, addCmd username,
                                      addDotCmd username, reloadCmd],
                     faultHit := some f, connected := false, rawResponse := none,
                     failureReason := some (classify_rcon_error f) }
            | .ok _ =>
              some { sessionOpened := true, sessionClosed := true,
                     commandsSent := [sayCmd username, addCmd username,
                                      addDotCmd username, reloadCmd],
                     faultHit := none, connected := true, rawResponse := some response,
                     failureReason := none }

/-! ## Whitelist Orchestrator (src/app.py, `whitelist_user`, lines 102-181)

The orchestrator is parametrised by `rcon : String -> Bool × String`, the
`(success, message)` pair `send_rcon_command` returns for a given identity
name, and by the configured `BEDROCK_PREFIX` token.  Alongside the HTTP
response we record the list of identity names for which `send_rcon_command`
was invoked, in order. -/

/-- JSON body plus HTTP status code of the orchestrator's reply. -/
structure HttpResponse where
  success : Bool
  message : String
  status : Nat
deriving DecidableEq

/-- Classification of a successful Java-attempt response
(src/app.py lines 137-145): first matching substring rule wins. -/
def classify_java (username resp : String) : String :=
  if strHasSub "Added" resp then
    "Success! " ++ username ++ " added to the whitelist."
  else if strHasSub "already" resp then
    username ++ " is already whitelisted."
  else if strHasSub "does not exist" resp then
    "Java username \x27" ++ username ++ "\x27 not found. Check spelling."
  else
    "Java attempt response: " ++ resp

/-- Classification of a successful Bedrock-attempt response
(src/app.py lines 148-156). -/
def classify_bedrock (bedrockUsername resp : String) : String :=
  if strHasSub "Added" resp then
    "Success! " ++ bedrockUsername ++ " (Bedrock) added to the whitelist."
  else if strHasSub "already" resp then
    bedrockUsername ++ " (Bedrock) is already whitelisted."
  else if strHasSub "does not exist" resp then
    "Bedrock username \x27" ++ bedrockUsername ++
      "\x27 not found. Ensure Floodgate is installed and username is correct."
  else
    "Bedrock attempt response: " ++ resp

/-- Python `" ".join(messages)`. -/
def joinSpace : List String → String
  | [] => ""
  | [m] => m
  | m :: rest => m ++ " " ++ joinSpace rest

/-- Result combination (src/app.py lines 131-181): build the per-attempt
sentences for the successful attempts and reply 200, or join the non-empty
failure reasons and reply 500.  In the single-attempt case the Bedrock
fields keep their initialisers (`False`, `""`, `""`, lines 120-122). -/
def whitelist_combine (username : String) (javaSuccess : Bool) (javaMsg : String)
    (bedrockSuccess : Bool) (bedrockUsername bedrockMsg : String) : HttpResponse :=
  if javaSuccess || bedrockSuccess then
    let messages : List String :=
      (if javaSuccess then [classify_java username javaMsg] else []) ++
      (if bedrockSuccess then [classify_bedrock bedrockUsername bedrockMsg] else [])
    let finalMessage :=
      if messages.isEmpty then "Whitelist operation completed." else joinSpace messages
    { success := true, message := finalMessage, status := 200 }
  else
    let errorMessages : List String :=
      (if javaMsg ≠ "" then ["Java attempt failed: " ++ javaMsg] else []) ++
      (if bedrockMsg ≠ "" then ["Bedrock attempt failed: " ++ bedrockMsg] else [])
    let errorMessages :=
      if errorMessages.isEmpty then
        ["Failed to whitelist username. Please try again or contact support."]
      else errorMessages
    { success := false, message := joinSpace errorMessages, status := 500 }

/-- The dual-attempt logic on a sanitized username (src/app.py lines
115-181): always call `send_rcon_command username`; when that fails and
`username` does not start with the configured Bedrock token, call it once
more on the token-prepended name.  Returns the HTTP response and the names
attempted, in order. -/
def whitelist_core (bedrockTok : String) (rcon : String → Bool × String)
    (username : String) : HttpResponse × List String :=
  let java := rcon username
  if !java.1 && !(strStartsWith username bedrockTok) then
    let bedrockUsername := bedrockTok ++ username
    let bedrock := rcon bedrockUsername
    (whitelist_combine username java.1 java.2 bedrock.1 bedrockUsername bedrock.2,
     [username, bedrockUsername])
  else
    (whitelist_combine username java.1 java.2 false "" "", [username])

/-- The `/api/whitelist` endpoint (src/app.py lines 102-181).  `rawUsername`
is `data.get('username')`: `none` when the JSON body has no username field.
Python's `if not raw_username` also rejects the empty string.  Then the name
is sanitized, rejected if empty, and handed to the dual-attempt logic. -/
def whitelist_user (bedrockTok : String) (rcon : String → Bool × String)
    (rawUsername : Option String) : HttpResponse × List String :=
  match rawUsername with
  | none =>
    ({ success := false, message := "Username required", status := 400 }, [])
  | some raw =>
    if raw == "" then
      ({ success := false, message := "Username required", status := 400 }, [])
    else
      let username := sanitize_username raw
      if username == "" then
        ({ success := false, message := "Invalid username format", status := 400 }, [])
      else
        whitelist_core bedrockTok rcon username

/-! ## Concrete environments used to instantiate the theorems -/

/-- Description of an authentication fault, as `str()` of the exception
`mcrcon` raises on a wrong password. -/
def authFaultDesc : String := "Authentication failed: wrong password"

/-- Environment whose session open raises the authentication fault. -/
def authFaultEnv : RconEnv :=
  { probe := .ok 0, openFault := some (.other authFaultDesc),
    exec := fun _ => .ok "resp" }

/-- Reachable environment whose every command succeeds, answering each
command `c` with `echo c` so responses identify their command. -/
def echoEnv : RconEnv :=
  { probe := .ok 0, openFault := none, exec := fun c => .ok ("echo " ++ c) }

/-- Reachable environment in which the whitelist-add command for "bob"
raises a timeout fault and every other command succeeds. -/
def addFailEnv : RconEnv :=
  { probe := .ok 0, openFault := none,
    exec := fun c => if c == addCmd "bob" then .error (.other "timed out") else .ok "resp" }

/-- Environment whose port probe call itself raises (name resolution
failure), and whose session would otherwise open fine. -/
def probeFaultEnv : RconEnv :=
  { probe := .fault "Name or service not known", openFault := none,
    exec := fun _ => .ok "resp" }

/-- Environment whose port probe reports the port closed (errno 111). -/
def portClosedEnv : RconEnv :=
  { probe := .ok 111, openFault := none, exec := fun _ => .ok "resp" }

/-- The adapter run produced by `authFaultEnv` on "bob". -/
def authFaultRun : AdapterRun :=
  { sessionOpened := false, sessionClosed := false, commandsSent := [],
    faultHit := some (.other authFaultDesc), connected := false,
    rawResponse := none,
    failureReason := some "RCON Authentication failed. Check password in .env" }

/-- The adapter run produced by `addFailEnv` on "bob": the session was
opened, the broadcast succeeded, the whitelist-add faulted, and the
session was still closed by the `with` block. -/
def addFailRun : AdapterRun :=
  { sessionOpened := true, sessionClosed := true,
    commandsSent := [sayCmd "bob", addCmd "bob"],
    faultHit := some (.other "timed out"), connected := false,
    rawResponse := none, failureReason := some "Connection timed out." }

/-! ## Theorems -/

/-- The regex class of `sanitize_username` and the spec's permitted-character
set agree on every character. -/
theorem regexClassChar_eq_specAllowedChar : regexClassChar = specAllowedChar := by
  funext c
  unfold regexClassChar specAllowedChar
  cases h1 : ('a' ≤ c && c ≤ 'z') <;> cases h2 : ('A' ≤ c && c ≤ 'Z') <;>
    cases h3 : ('0' ≤ c && c ≤ '9') <;> simp [h1, h2, h3]

/-- Claim C8: for every raw string, `sanitize_username` returns exactly the
input with every character outside the set of uppercase letters, lowercase
letters, digits, underscore, space and dot silently removed, and then
leading/trailing whitespace trimmed — the behaviour of the spec's
`normalize` contract. -/
theorem c8_sanitize_username_matches_spec (raw : String) :
    sanitize_username raw = normalize_spec raw := by
  unfold sanitize_username normalize_spec
  rw [regexClassChar_eq_specAllowedChar]

/-- Claim C7: a submission whose username is present (non-empty) but
sanitizes to the empty string is rejected with HTTP 400 and message
"Invalid username format", and no RCON attempt is made, so no reachability
check, session, or remote command occurs (the response is the same for
every `rcon` behaviour and the attempted-names list is empty). -/
theorem c7_empty_sanitized_rejected (bedrockTok : String)
    (rcon : String → Bool × String) (raw : String)
    (hne : raw ≠ "") (hempty : sanitize_username raw = "") :
    whitelist_user bedrockTok rcon (some raw) =
      ({ success := false, message := "Invalid username format", status := 400 }, []) := by
  unfold whitelist_user
  simp [hne, hempty]

/-- Witness for C7 at the concrete submission "!!!". -/
theorem c7_empty_sanitized_rejected_witness :
    whitelist_user "." (fun _ => (true, "ok")) (some "!!!") =
      ({ success := false, message := "Invalid username format", status := 400 }, []) :=
  c7_empty_sanitized_rejected "." (fun _ => (true, "ok")) "!!!" (by decide) (by decide)

/-- Claim C10: a request with no username field, or with the empty string as
username, is rejected with HTTP 400 and message "Username required" — for
every `rcon` behaviour, with an empty attempted-names list, so before
sanitization and before any network activity — distinct from the
"Invalid username format" rejection. -/
theorem c10_missing_username_rejected (bedrockTok : String)
    (rcon : String → Bool × String) (rawUsername : Option String)
    (h : rawUsername = none ∨ rawUsername = some "") :
    whitelist_user bedrockTok rcon rawUsername =
      ({ success := false, message := "Username required", status := 400 }, []) := by
  rcases h with h | h <;> subst h <;> simp [whitelist_user]

/-- Witness for C10 at a request with no username field. -/
theorem c10_missing_username_rejected_witness :
    whitelist_user "." (fun _ => (true, "ok")) none =
      ({ success := false, message := "Username required", status := 400 }, []) :=
  c10_missing_username_rejected "." (fun _ => (true, "ok")) none (Or.inl rfl)

/-- Claim C2 counterexample: with the adapter connected (`connected=true`)
but answering "That player does not exist" — a response that does not
indicate success — for the unprefixed name "bob", the claim says a second,
prefixed attempt must occur; the code attempts only ["bob"], because the
retry condition inspects only the connected flag, never the response
text. -/
theorem c2_retry_counterexample :
    (whitelist_core "." (fun _ => (true, "That player does not exist")) "bob").2 =
        ["bob"] ∧
    strStartsWith "bob" "." = false ∧
    strHasSub "does not exist" "That player does not exist" = true ∧
    strHasSub "Added" "That player does not exist" = false ∧
    strHasSub "already" "That player does not exist" = false := by decide

/-- Claim C2 (amended): the primary identity is always attempted first, and
the prefixed identity (prefix ++ canonical name) is attempted if and only if
the primary attempt's connected flag is false AND the canonical name does
not already start with the configured prefix; in that case exactly one
additional attempt occurs, never more, and no prefixed attempt is ever made
for a name already starting with the prefix. -/
theorem c2_retry_iff_primary_disconnected (bedrockTok : String)
    (rcon : String → Bool × String) (username : String) :
    (whitelist_core bedrockTok rcon username).2 =
      if !(rcon username).1 && !(strStartsWith username bedrockTok) then
        [username, bedrockTok ++ username]
      else [username] := by
  unfold whitelist_core
  cases h : (!(rcon username).1 && !(strStartsWith username bedrockTok)) <;> simp [h]

/-- Claim C5: the overall result succeeds iff some attempted name got a
connected outcome; on success the status is 200 and the message is the
join of one classification sentence per successful attempt (first matching
substring rule wins inside `classify_java` / `classify_bedrock`); when both
attempts were made and both failed with non-empty reasons, the status is
500 and the message is the concatenation of the two failure reasons, each
prefixed with the attempt it belongs to. -/
theorem c5_aggregation (bedrockTok : String) (rcon : String → Bool × String)
    (username : String) :
    ((whitelist_core bedrockTok rcon username).1.success = true ↔
      ∃ n ∈ (whitelist_core bedrockTok rcon username).2, (rcon n).1 = true) ∧
    ((whitelist_core bedrockTok rcon username).1.success = true →
      (whitelist_core bedrockTok rcon username).1.status = 200 ∧
      (whitelist_core bedrockTok rcon username).1.message = joinSpace
        ((if (rcon username).1 then [classify_java username (rcon username).2] else []) ++
         (if !(rcon username).1 && !(strStartsWith username bedrockTok) &&
              (rcon (bedrockTok ++ username)).1 then
            [classify_bedrock (bedrockTok ++ username) (rcon (bedrockTok ++ username)).2]
          else []))) ∧
    ((rcon username).1 = false → strStartsWith username bedrockTok = false →
      (rcon (bedrockTok ++ username)).1 = false →
      (rcon username).2 ≠ "" → (rcon (bedrockTok ++ username)).2 ≠ "" →
      (whitelist_core bedrockTok rcon username).1.status = 500 ∧
      (whitelist_core bedrockTok rcon username).1.message =
        "Java attempt failed: " ++ (rcon username).2 ++ " " ++
          ("Bedrock attempt failed: " ++ (rcon (bedrockTok ++ username)).2)) := by
  unfold whitelist_core whitelist_combine
  rcases hj : (rcon username).1 <;> rcases hs : strStartsWith username bedrockTok <;>
    rcases hb : (rcon (bedrockTok ++ username)).1 <;>
      (simp [hj, hs, hb, joinSpace]; try (intro h1 h2; simp [h1, h2, joinSpace]))

/-- Witness for C5: a connected "Added" outcome gives a 200 with the added
sentence, and a doubly failed run gives a 500 joining both failure
reasons. -/
theorem c5_aggregation_witness :
    ((whitelist_core "." (fun _ => (true, "Added bob to the whitelist")) "bob").1.status = 200 ∧
     (whitelist_core "." (fun _ => (true, "Added bob to the whitelist")) "bob").1.message =
       joinSpace [classify_java "bob" "Added bob to the whitelist"]) ∧
    ((whitelist_core "." (fun _ => (false, "Connection timed out.")) "bob").1.status = 500 ∧
     (whitelist_core "." (fun _ => (false, "Connection timed out.")) "bob").1.message =
       "Java attempt failed: " ++ "Connection timed out." ++ " " ++
         ("Bedrock attempt failed: " ++ "Connection timed out.")) := by
  constructor
  · have h :=
      (c5_aggregation "." (fun _ => (true, "Added bob to the whitelist")) "bob").2.1
        (by decide)
    exact ⟨h.1, by rw [h.2]; decide⟩
  · exact (c5_aggregation "." (fun _ => (false, "Connection timed out.")) "bob").2.2
      (by decide) (by decide) (by decide) (by decide) (by decide)

/-- Claim C1 counterexample: with the adapter connected and answering
"That player does not exist" (which contains neither "Added" nor
"already"), `process("unknownuser", java)` yields success = true with HTTP
status 200, not the claimed success = false / 400: the overall flag tracks
only connectivity, and the platform hint is ignored (there is no hinted
policy in the code). -/
theorem c1_not_found_counterexample :
    (whitelist_user "." (fun _ => (true, "That player does not exist"))
        (some "unknownuser")).1.success = true ∧
    (whitelist_user "." (fun _ => (true, "That player does not exist"))
        (some "unknownuser")).1.status = 200 ∧
    strHasSub "does not exist" "That player does not exist" = true ∧
    strHasSub "Added" "That player does not exist" = false ∧
    strHasSub "already" "That player does not exist" = false := by decide

/-- Claim C1 (amended): for a connected outcome whose response contains
"does not exist" and neither "Added" nor "already", the orchestrator
replies with success = true and HTTP 200 — the overall flag tracks only
connectivity — while the per-attempt sentence is the not-found message,
and the Java and Bedrock sentences carry distinct guidance. -/
theorem c1_not_found_classified_success (bedrockTok username resp : String)
    (hd : strHasSub "does not exist" resp = true)
    (ha : strHasSub "Added" resp = false)
    (hy : strHasSub "already" resp = false) :
    whitelist_core bedrockTok (fun _ => (true, resp)) username =
      ({ success := true,
         message := "Java username \x27" ++ username ++ "\x27 not found. Check spelling.",
         status := 200 }, [username]) ∧
    classify_bedrock (bedrockTok ++ username) resp =
      "Bedrock username \x27" ++ (bedrockTok ++ username) ++
        "\x27 not found. Ensure Floodgate is installed and username is correct." := by
  constructor
  · unfold whitelist_core whitelist_combine classify_java
    simp [hd, ha, hy, joinSpace]
  · unfold classify_bedrock
    simp [hd, ha, hy]

/-- Witness for C1 (amended) at the response "That player does not
exist". -/
theorem c1_not_found_classified_success_witness :
    whitelist_core "." (fun _ => (true, "That player does not exist")) "unknownuser" =
      ({ success := true,
         message := "Java username \x27" ++ "unknownuser" ++ "\x27 not found. Check spelling.",
         status := 200 }, ["unknownuser"]) :=
  (c1_not_found_classified_success "." "unknownuser" "That player does not exist"
    (by decide) (by decide) (by decide)).1

/-- Claim C6: whenever the pre-flight probe returns a non-zero error
indicator (the reachability check reports unreachable), the adapter opens
no session, sends no command, and returns connected = false with the
dedicated port-closed failure reason. -/
theorem c6_unreachable_skips_session (env : RconEnv) (username : String) (e : Int)
    (hp : env.probe = .ok e) (hne : e ≠ 0) :
    send_rcon_command env username =
      some { sessionOpened := false, sessionClosed := false, commandsSent := [],
             faultHit := none, connected := false, rawResponse := none,
             failureReason := some portClosedMsg } := by
  unfold send_rcon_command check_port_open
  rw [hp]
  have h0 : (e == 0) = false := by simp [hne]
  simp [h0]

/-- Witness for C6 at errno 111 (connection refused). -/
theorem c6_unreachable_skips_session_witness :
    send_rcon_command portClosedEnv "bob" =
      some { sessionOpened := false, sessionClosed := false, commandsSent := [],
             faultHit := none, connected := false, rawResponse := none,
             failureReason := some portClosedMsg } :=
  c6_unreachable_skips_session portClosedEnv "bob" 111 rfl (by decide)

/-- Claim C3 counterexample: on a fully successful run for "bob", the
session issues four commands — the broadcast, the whitelist-add for the
name, an additional whitelist-add for the dot-prefixed name, and the
reload — not the claimed three; the raw response returned is still the
response of the first whitelist-add. -/
theorem c3_command_sequence_counterexample :
    (send_rcon_command echoEnv "bob").map AdapterRun.commandsSent =
      some ["say bob has signed up for the server!", "whitelist add bob",
            "whitelist add .bob", "whitelist reload"] ∧
    (send_rcon_command echoEnv "bob").map AdapterRun.commandsSent ≠
      some ["say bob has signed up for the server!", "whitelist add bob",
            "whitelist reload"] ∧
    (send_rcon_command echoEnv "bob").map AdapterRun.rawResponse =
      some (some ("echo " ++ "whitelist add bob")) := by decide

/-- Claim C3 (amended): on a run in which the port probe reports open, the
session opens, and every command succeeds, the session issues exactly, in
order: (a) the broadcast naming the identity, (b) the whitelist-add for the
identity name, (b2) a second whitelist-add for the identity name prefixed
with a hard-coded dot, and (c) the whitelist-reload; the captured
`rawResponse` is the response of the whitelist-add of step (b). -/
theorem c3_session_command_sequence (username : String) (env : RconEnv)
    (r1 r2 r3 r4 : String)
    (hprobe : env.probe = .ok 0) (hopen : env.openFault = none)
    (h1 : env.exec (sayCmd username) = .ok r1)
    (h2 : env.exec (addCmd username) = .ok r2)
    (h3 : env.exec (addDotCmd username) = .ok r3)
    (h4 : env.exec reloadCmd = .ok r4) :
    send_rcon_command env username =
      some { sessionOpened := true, sessionClosed := true,
             commandsSent := [sayCmd username, addCmd username, addDotCmd username,
                              reloadCmd],
             faultHit := none, connected := true, rawResponse := some r2,
             failureReason := none } := by
  unfold send_rcon_command check_port_open
  rw [hprobe]
  simp [hopen, h1, h2, h3, h4]

/-- Witness for C3 (amended) in the echoing environment: the raw response
is the echo of the step (b) command, not of any other command. -/
theorem c3_session_command_sequence_witness :
    send_rcon_command echoEnv "bob" =
      some { sessionOpened := true, sessionClosed := true,
             commandsSent := [sayCmd "bob", addCmd "bob", addDotCmd "bob", reloadCmd],
             faultHit := none, connected := true,
             rawResponse := some ("echo " ++ addCmd "bob"),
             failureReason := none } :=
  c3_session_command_sequence "bob" echoEnv ("echo " ++ sayCmd "bob")
    ("echo " ++ addCmd "bob") ("echo " ++ addDotCmd "bob") ("echo " ++ reloadCmd)
    rfl rfl rfl rfl rfl rfl

/-- Claim C4: whenever a fault is caught during session open or command
execution, the adapter returns connected = false with no raw response and
the failure reason produced by the substring classification: a
connection-refused fault maps to the connection-refused reason; a
description containing "Authentication failed" maps to the
authentication reason (never the generic one); otherwise a description
containing "timed out" maps to the timeout reason; any other fault maps to
the generic wrapped reason carrying the original description. -/
theorem c4_fault_classification (env : RconEnv) (username : String) (f : Fault)
    (r : AdapterRun) (hr : send_rcon_command env username = some r)
    (hf : r.faultHit = some f) :
    (r.connected = false ∧ r.rawResponse = none ∧
      r.failureReason = some (classify_rcon_error f)) ∧
    (∀ d, classify_rcon_error (.connectionRefused d) =
      "Connection Refused. Server running?") ∧
    (∀ d, strHasSub "Authentication failed" d = true →
      classify_rcon_error (.other d) =
        "RCON Authentication failed. Check password in .env") ∧
    (∀ d, strHasSub "Authentication failed" d = false →
      strHasSub "timed out" d = true →
      classify_rcon_error (.other d) = "Connection timed out.") ∧
    (∀ d, strHasSub "Authentication failed" d = false →
      strHasSub "timed out" d = false →
      classify_rcon_error (.other d) = "RCON Error: " ++ d) := by
  refine ⟨?_, fun d => rfl, fun d hd => ?_, fun d hd ht => ?_, fun d hd ht => ?_⟩
  · unfold send_rcon_command at hr
    iterate 6 (all_goals try split at hr)
    all_goals try (exact Option.noConfusion hr)
    all_goals rw [Option.some_inj] at hr
    all_goals subst hr
    all_goals simp_all
  · simp [classify_rcon_error, hd]
  · simp [classify_rcon_error, hd, ht]
  · simp [classify_rcon_error, hd, ht]

/-- Witness for C4: a session-open fault whose description contains
"Authentication failed" yields the authentication-specific reason, not the
generic wrapped one. -/
theorem c4_fault_classification_witness :
    authFaultRun.connected = false ∧ authFaultRun.rawResponse = none ∧
    authFaultRun.failureReason =
      some "RCON Authentication failed. Check password in .env" ∧
    authFaultRun.failureReason ≠ some ("RCON Error: " ++ authFaultDesc) := by
  have h := (c4_fault_classification authFaultEnv "bob" (.other authFaultDesc)
    authFaultRun (by decide) (by decide)).1
  exact ⟨h.1, h.2.1, h.2.2.trans (by decide), by decide⟩

/-- Claim C9 counterexample: when the `connect_ex` call itself raises (for
example on a name-resolution failure, which `connect_ex` does not convert
into an error indicator), `check_port_open` raises before reaching
`sock.close()`: the probe socket is not released on this fault path, since
the acquisition has no try/finally scope, and the fault propagates out of
`send_rcon_command`, which produces no outcome. -/
theorem c9_probe_fault_counterexample :
    (check_port_open (.fault "Name or service not known")).sockClosed = false ∧
    (check_port_open (.fault "Name or service not known")).result = none ∧
    send_rcon_command probeFaultEnv "bob" = none := by decide

/-- Claim C9 (amended): the probe socket is closed whenever `connect_ex`
returns an error indicator — whichever the reachability outcome — and the
RCON session, scoped by the `with` block, is closed on every exit path on
which it was opened (success, command failure, or fault); but a fault
raised by the probe call itself escapes before the socket is closed. -/
theorem c9_resource_release (e : Int) (env : RconEnv) (username : String)
    (r : AdapterRun) (hr : send_rcon_command env username = some r) :
    (check_port_open (.ok e)).sockClosed = true ∧
    (r.sessionOpened = true → r.sessionClosed = true) := by
  refine ⟨rfl, ?_⟩
  unfold send_rcon_command at hr
  iterate 6 (all_goals try split at hr)
  all_goals try (exact Option.noConfusion hr)
  all_goals rw [Option.some_inj] at hr
  all_goals subst hr
  all_goals simp_all

/-- Witness for C9 (amended) on a run whose whitelist-add command faults:
the session was opened and was still closed. -/
theorem c9_resource_release_witness :
    (check_port_open (.ok 7)).sockClosed = true ∧ addFailRun.sessionClosed = true := by
  have h := c9_resource_release 7 addFailEnv "bob" addFailRun (by decide)
  exact ⟨h.1, h.2 (by decide)⟩

end WhitelistGateway
